import Mathlib

/-!
Verification of the schema-driven missing-information detector of the
repository (source: `src/mastra/tools/agent-tools.ts`).

The TypeScript source is shallowly embedded below:
  * `analyzeTableSchema`, `buildDetailedQuery`, `categorizeCandidatePriority`
    are translated function-by-function;
  * the `detect-missing-info` and `send-email` tool `execute` bodies are
    translated as total functions over an explicit model of the external
    database/transport collaborators (`DbWorld`, `SendTransport`), with
    JavaScript thrown exceptions modelled as `Except.error` and the
    structured `{success:false, ...}` return objects modelled as a
    dedicated constructor;
  * JavaScript semantics that matter are made explicit: `String.includes`
    is substring containment, `Array.includes` is exact-equality
    membership, `!s` on a string tests for the empty string, `x || y`
    falls back on falsy values, iteration over `Object.keys` of the
    grouped column catalog is modelled as first-insertion order
    (table names coming from `information_schema` are ordinary
    non-numeric strings).
-/

/-- JavaScript `String.prototype.startsWith` on character lists. -/
def startsWithList : List Char → List Char → Bool
  | [], _ => true
  | _ :: _, [] => false
  | a :: as, b :: bs => a == b && startsWithList as bs

/-- JavaScript `String.prototype.includes` (substring test) on character lists. -/
def includesList : List Char → List Char → Bool
  | [], pat => pat.isEmpty
  | s@(_ :: rest), pat => startsWithList pat s || includesList rest pat

/-- JavaScript `s.includes(pat)` for strings. -/
def strIncludes (s pat : String) : Bool :=
  includesList s.data pat.data

/-- JavaScript `String.prototype.replace` with a plain-string pattern:
replaces only the first occurrence. Used for `idField.replace('id', 'candidate_id')`. -/
def replaceFirstList (s pat rep : List Char) : List Char :=
  match s with
  | [] => []
  | c :: rest =>
    if startsWithList pat (c :: rest) then rep ++ (c :: rest).drop pat.length
    else c :: replaceFirstList rest pat rep

/-- JavaScript `s.replace(pat, rep)` (first occurrence only) for strings. -/
def replaceFirst (s pat rep : String) : String :=
  ⟨replaceFirstList s.data pat.data rep.data⟩

/-- JavaScript `String.prototype.toLowerCase` (the identifiers involved are
ASCII); written with a structural map so that concrete evaluation is
kernel-reducible. -/
def strToLower (s : String) : String :=
  ⟨s.data.map Char.toLower⟩

/-- Drop leading whitespace characters. -/
def trimLeftChars : List Char → List Char
  | [] => []
  | c :: rest => if c.isWhitespace then trimLeftChars rest else c :: rest

/-- JavaScript `String.prototype.trim`. -/
def jsTrim (s : String) : String :=
  ⟨(trimLeftChars ((trimLeftChars s.data).reverse)).reverse⟩

/-- JavaScript truthiness of an optional string value (`undefined`/`null`/`''` are falsy). -/
def jsTruthy (o : Option String) : Bool :=
  match o with
  | none => false
  | some s => s != ""

/-- One row of the `information_schema.columns` catalog query
(`table_name, column_name, data_type, is_nullable`), the Schema Analyzer's input. -/
structure SchemaRow where
  table_name : String
  column_name : String
  data_type : String
  is_nullable : String
deriving Repr, DecidableEq

/- Pattern families from `analyzeTableSchema` (agent-tools.ts lines 376-380). -/

def candidateTablePatterns : List String :=
  ["candidates", "contacts", "users", "people", "customers", "clients"]

def emailFieldPatterns : List String :=
  ["email", "email_address", "contact_email", "mail"]

def phoneFieldPatterns : List String :=
  ["phone", "phone_number", "contact_phone", "mobile", "telephone"]

def nameFieldPatterns : List String :=
  ["name", "full_name", "first_name", "last_name", "contact_name"]

def idFieldPatterns : List String :=
  ["id", "candidate_id", "contact_id", "user_id", "person_id"]

/-- `patterns.some(pattern => col.includes(pattern))`. -/
def matchesAny (patterns : List String) (col : String) : Bool :=
  patterns.any fun pattern => strIncludes col pattern

/-- The per-column test of the `hasContactFields` check: the column matches
at least one of the three contact pattern families. -/
def colContactB (col : String) : Bool :=
  matchesAny emailFieldPatterns col ||
  matchesAny phoneFieldPatterns col ||
  matchesAny nameFieldPatterns col

/-- `columns.some(col => email-match || phone-match || name-match)`
(agent-tools.ts lines 385-389). -/
def hasContactFields (columns : List String) : Bool :=
  columns.any colContactB

/-- The table score (agent-tools.ts lines 392-394): +10 per entity-name hint
contained in the table name, plus the number of columns. -/
def tableScore (tableName : String) (columns : List String) : Nat :=
  candidateTablePatterns.foldl
    (fun score pattern => score + (if strIncludes (strToLower tableName) pattern then 10 else 0)) 0
  + columns.length

/-- `tableColumns[row.table_name].push(row.column_name.toLowerCase())`:
append a (lowercased) column into the bucket of its table, creating the
bucket at the end on first sight (JS object insertion order). -/
def insertColumn : List (String × List String) → String → String → List (String × List String)
  | [], t, c => [(t, [c])]
  | (t', cs) :: rest, t, c =>
    if t' = t then (t', cs ++ [c]) :: rest
    else (t', cs) :: insertColumn rest t c

/-- The grouping loop of `analyzeTableSchema` (agent-tools.ts lines 359-364). -/
def groupColumns (schemaData : List SchemaRow) : List (String × List String) :=
  schemaData.foldl (fun acc row => insertColumn acc row.table_name (strToLower row.column_name)) []

/-- The mutable selection state of the main loop of `analyzeTableSchema`
(`mainTable`, `emailField`, `phoneField`, `nameField`, `idField`, all
initialised to `''`). -/
structure SelState where
  mainTable : String
  emailField : String
  phoneField : String
  nameField : String
  idField : String
deriving Repr, DecidableEq

/-- The guard of the assignment in the selection loop:
`hasContactFields` and `tableScore > 0` (agent-tools.ts lines 391, 396). -/
def qualifiesB (tc : String × List String) : Bool :=
  hasContactFields tc.2 && decide (0 < tableScore tc.1 tc.2)

/-- The field-binding assignments performed when a table is selected
(agent-tools.ts lines 397-403). -/
def mkSelected (tc : String × List String) : SelState where
  mainTable := tc.1
  emailField := (tc.2.find? (matchesAny emailFieldPatterns)).getD ""
  phoneField := (tc.2.find? (matchesAny phoneFieldPatterns)).getD ""
  nameField := (tc.2.find? (matchesAny nameFieldPatterns)).getD ""
  idField := (tc.2.find? (matchesAny idFieldPatterns)).getD "id"

/-- One iteration of the selection loop. Note the JS guard is
`tableScore > 0 && !mainTable`, and `!mainTable` is true exactly when the
current `mainTable` is the empty string. -/
def selStep (st : SelState) (tc : String × List String) : SelState :=
  if qualifiesB tc && (st.mainTable == "") then mkSelected tc else st

/-- `recoveryTables` membership test (agent-tools.ts lines 409-415). -/
def isRecoveryTable (tableName : String) : Bool :=
  strIncludes (strToLower tableName) "resume" ||
  strIncludes (strToLower tableName) "form" ||
  strIncludes (strToLower tableName) "application" ||
  strIncludes (strToLower tableName) "profile" ||
  strIncludes (strToLower tableName) "information"

/-- The result record of `analyzeTableSchema` (agent-tools.ts lines 417-426). -/
structure TableAnalysis where
  mainTable : String
  emailField : String
  phoneField : String
  nameField : String
  idField : String
  allTables : List String
  recoveryTables : List String
  tableColumns : List (String × List String)
deriving Repr, DecidableEq

/-- `analyzeTableSchema` (agent-tools.ts lines 355-427). -/
def analyzeTableSchema (schemaData : List SchemaRow) : TableAnalysis :=
  let tableColumns := groupColumns schemaData
  let allTables := tableColumns.map Prod.fst
  let sel := tableColumns.foldl selStep ⟨"", "", "", "", ""⟩
  let recoveryTables := allTables.filter isRecoveryTable
  { mainTable := sel.mainTable
    emailField := sel.emailField
    phoneField := sel.phoneField
    nameField := sel.nameField
    idField := sel.idField
    allTables := allTables
    recoveryTables := recoveryTables
    tableColumns := tableColumns }

/-- The priority levels of a `MissingInfoRecord`. -/
inductive Priority
  | Critical
  | High
  | Medium
  | Low
deriving Repr, DecidableEq

def Priority.toStr : Priority → String
  | .Critical => "Critical"
  | .High => "High"
  | .Medium => "Medium"
  | .Low => "Low"

/-- `categorizeCandidatePriority` (agent-tools.ts lines 496-515).
`Array.prototype.includes` is exact-equality membership, i.e. `List.contains`. -/
def categorizeCandidatePriority (missingFields recoverableFields : List String) : Priority :=
  let hasMissingEmail := missingFields.contains "email"
  let hasMissingPhone := missingFields.contains "phone_number"
  let hasMissingName := missingFields.contains "full_name"
  if hasMissingEmail then .Critical
  else if hasMissingPhone && hasMissingName then .High
  else if (hasMissingPhone && !(recoverableFields.contains "phone_number")) ||
          (hasMissingName && !(recoverableFields.contains "full_name")) then .Medium
  else .Low

/-- A single-quote character, used when building SQL text. -/
def sqlQuote : String := String.singleton (Char.ofNat 39)

/-- The phone-number-shaped regular expression literal of the recovery query
(agent-tools.ts lines 480-481), single quotes included. -/
def phoneRegexLit : String := sqlQuote ++ "\\+?[\\d\\s\\-\\(\\)]\x7b8,\x7d" ++ sqlQuote

/-- The constant schema-discovery statement (agent-tools.ts lines 178-187);
indentation normalized. -/
def discoveryQuery : String :=
  "SELECT \n  table_name,\n  column_name,\n  data_type,\n  is_nullable\n" ++
  "FROM information_schema.columns \nWHERE table_schema = " ++ sqlQuote ++ "public" ++ sqlQuote ++
  " \nORDER BY table_name, ordinal_position;"

/-- `${f ? `CASE WHEN ${f} IS NULL THEN 1 ELSE 0 END as label,` : '0 as label,'}` -/
def missingFlagFragment (f label : String) : String :=
  if f = "" then "0 as " ++ label
  else "CASE WHEN " ++ f ++ " IS NULL THEN 1 ELSE 0 END as " ++ label

/-- `${f ? `CASE WHEN ${f} IS NULL THEN 1 ELSE 0 END` : '0'}` (ORDER BY clause). -/
def nullFlagFragment (f : String) : String :=
  if f = "" then "0" else "CASE WHEN " ++ f ++ " IS NULL THEN 1 ELSE 0 END"

/-- The shared `SELECT`-list / `WHERE` base of both detailed statements
(agent-tools.ts lines 435-446 and 461-472); indentation normalized. -/
def detailBaseFragment (ta : TableAnalysis) : String :=
  "SELECT \n  " ++ ta.idField ++ " as record_id,\n  " ++
  (if ta.emailField = "" then "NULL" else ta.emailField) ++ " as email,\n  " ++
  (if ta.phoneField = "" then "NULL" else ta.phoneField) ++ " as phone,\n  " ++
  (if ta.nameField = "" then "NULL" else ta.nameField) ++ " as name,\n  " ++
  missingFlagFragment ta.emailField "missing_email" ++ ",\n  " ++
  missingFlagFragment ta.phoneField "missing_phone" ++ ",\n  " ++
  missingFlagFragment ta.nameField "missing_name" ++
  "\nFROM " ++ ta.mainTable ++ "\nWHERE " ++
  (if ta.emailField = "" then "" else ta.emailField ++ " IS NULL OR") ++ " \n  " ++
  (if ta.phoneField = "" then "" else ta.phoneField ++ " IS NULL OR") ++ " \n  " ++
  (if ta.nameField = "" then "FALSE" else ta.nameField ++ " IS NULL")

/-- Everything of the recovery-branch statement before the `LEFT JOIN`
(agent-tools.ts lines 459-485). -/
def recoveryQueryHead (ta : TableAnalysis) : String :=
  "WITH missing_records AS (\n" ++ detailBaseFragment ta ++ "\n),\n" ++
  "recovery_analysis AS (\n  SELECT \n    mr.*,\n    r.content_json->>" ++
  sqlQuote ++ "name" ++ sqlQuote ++ " as recoverable_name,\n    r.content_json->>" ++
  sqlQuote ++ "contact" ++ sqlQuote ++ " as recoverable_contact,\n    CASE \n      " ++
  "WHEN mr.missing_phone = 1 AND r.content_json->>" ++ sqlQuote ++ "contact" ++ sqlQuote ++
  " ~ " ++ phoneRegexLit ++ " \n      THEN (regexp_matches(r.content_json->>" ++
  sqlQuote ++ "contact" ++ sqlQuote ++ ", " ++ phoneRegexLit ++ ", " ++ sqlQuote ++ "g" ++ sqlQuote ++
  "))[1]\n      ELSE NULL \n    END as recoverable_phone\n  FROM missing_records mr\n  "

/-- Everything of the recovery-branch statement after the joined table name
(agent-tools.ts lines 485-492): the join condition uses
`idField.replace('id', 'candidate_id')` (first occurrence only). -/
def recoveryQueryTail (ta : TableAnalysis) (limitResults : Nat) : String :=
  " r ON r." ++ replaceFirst ta.idField "id" "candidate_id" ++
  " = mr.record_id OR r.candidate_id = mr.record_id\n)\n" ++
  "SELECT * FROM recovery_analysis\nORDER BY \n  " ++
  "(missing_email + missing_phone + missing_name) DESC,\n  record_id\nLIMIT " ++
  toString limitResults ++ ";"

/-- `buildDetailedQuery` (agent-tools.ts lines 430-493). -/
def buildDetailedQuery (ta : TableAnalysis) (includeRecoveryAnalysis : Bool)
    (limitResults : Nat) : String :=
  if !includeRecoveryAnalysis || ta.recoveryTables.length == 0 then
    detailBaseFragment ta ++
    "\nORDER BY \n  (" ++ nullFlagFragment ta.emailField ++ " + \n   " ++
    nullFlagFragment ta.phoneField ++ " + \n   " ++ nullFlagFragment ta.nameField ++
    ") DESC,\n  " ++ ta.idField ++ "\nLIMIT " ++ toString limitResults ++ ";"
  else
    recoveryQueryHead ta ++ "LEFT JOIN " ++ ta.recoveryTables.headD "" ++
    recoveryQueryTail ta limitResults

/-- The inline summary statement of Step 3 (agent-tools.ts lines 215-236);
indentation normalized. -/
def buildSummaryQuery (ta : TableAnalysis) : String :=
  "WITH main_table_analysis AS (\n  SELECT \n    COUNT(*) as total_records,\n    " ++
  (if ta.emailField = "" then "0 as has_email," else "COUNT(" ++ ta.emailField ++ ") as has_email,") ++
  "\n    " ++
  (if ta.phoneField = "" then "0 as has_phone," else "COUNT(" ++ ta.phoneField ++ ") as has_phone,") ++
  "\n    " ++
  (if ta.nameField = "" then "0 as has_name," else "COUNT(" ++ ta.nameField ++ ") as has_name,") ++
  "\n    " ++
  (if ta.emailField = "" then "0 as missing_email," else "COUNT(*) - COUNT(" ++ ta.emailField ++ ") as missing_email,") ++
  "\n    " ++
  (if ta.phoneField = "" then "0 as missing_phone," else "COUNT(*) - COUNT(" ++ ta.phoneField ++ ") as missing_phone,") ++
  "\n    " ++
  (if ta.nameField = "" then "0 as missing_name" else "COUNT(*) - COUNT(" ++ ta.nameField ++ ") as missing_name") ++
  "\n  FROM " ++ ta.mainTable ++ "\n)\nSELECT \n  total_records,\n  missing_email,\n  missing_phone,\n  missing_name,\n  " ++
  "ROUND((missing_phone * 100.0 / total_records), 2) as missing_phone_percentage,\n  " ++
  "ROUND((missing_email * 100.0 / total_records), 2) as missing_email_percentage,\n  " ++
  "ROUND((missing_name * 100.0 / total_records), 2) as missing_name_percentage\n" ++
  "FROM main_table_analysis;"

/-- One row of the detailed-statement result as consumed by Step 5
(agent-tools.ts lines 247-283). Fields accessed by a literal key in the
source (`record.missing_email`, `record.record_id`, ...) are modelled as
named fields; the dynamically-keyed accesses `record[tableAnalysis.xField or
default]` go through the `attrs` association list. Absent keys are `none`. -/
structure DetailRow where
  record_id : Option String
  id : Option String
  missing_email : Nat
  missing_phone : Nat
  missing_name : Nat
  recoverable_phone : Option String
  recoverable_name : Option String
  business_unit_id : Option Int
  attrs : List (String × String)
deriving Repr, DecidableEq

/-- JavaScript `a || b` for an optional string `a` (empty string is falsy). -/
def jsOrStr (a : Option String) (b : String) : String :=
  match a with
  | some s => if s = "" then b else s
  | none => b

/-- JavaScript `record[k]` over the modelled association list. -/
def rowLookup (r : DetailRow) (k : String) : Option String :=
  (r.attrs.find? fun kv => kv.1 == k).map Prod.snd

/-- JavaScript `v || null` for an optional string value. -/
def jsOrNull (o : Option String) : Option String :=
  match o with
  | some s => if s = "" then none else some s
  | none => none

/-- JavaScript `v || null` for an optional integer value (`0` is falsy). -/
def jsOrNullInt (o : Option Int) : Option Int :=
  match o with
  | some n => if n = 0 then none else some n
  | none => none

/-- The `MissingInfoRecord` interface (agent-tools.ts lines 111-124);
`recovery_sources` is modelled as a key/value list. -/
structure MissingInfoRecord where
  candidate_id : String
  full_name : Option String
  email : Option String
  phone_number : Option String
  business_unit_id : Option Int
  missing_fields : List String
  recoverable_fields : List String
  recovery_sources : List (String × String)
  priority : Priority
deriving Repr, DecidableEq

/-- The `missingFields` pushes of Step 5 (agent-tools.ts lines 254-263),
in source order: email, then phone, then name; a field is pushed only when
its missing flag is `1` and the bound field name is truthy (non-empty). -/
def recordMissingFields (ta : TableAnalysis) (r : DetailRow) : List String :=
  (if r.missing_email = 1 ∧ ta.emailField ≠ "" then [ta.emailField] else []) ++
  (if r.missing_phone = 1 ∧ ta.phoneField ≠ "" then [ta.phoneField] else []) ++
  (if r.missing_name = 1 ∧ ta.nameField ≠ "" then [ta.nameField] else [])

/-- The `recoverableFields` pushes of Step 5 (agent-tools.ts lines 257-258
and 264-265): nested inside the corresponding missing-field branches, with
the additional truthiness test on the recovered value. -/
def recordRecoverableFields (ta : TableAnalysis) (r : DetailRow) : List String :=
  (if r.missing_phone = 1 ∧ ta.phoneField ≠ "" ∧ jsTruthy r.recoverable_phone = true then
    [ta.phoneField] else []) ++
  (if r.missing_name = 1 ∧ ta.nameField ≠ "" ∧ jsTruthy r.recoverable_name = true then
    [ta.nameField] else [])

/-- The `recoverySources` assignments of Step 5 (agent-tools.ts lines 259, 266). -/
def recordRecoverySources (ta : TableAnalysis) (r : DetailRow) : List (String × String) :=
  (if r.missing_phone = 1 ∧ ta.phoneField ≠ "" ∧ jsTruthy r.recoverable_phone = true then
    [("phone_from_related", jsTrim (r.recoverable_phone.getD ""))] else []) ++
  (if r.missing_name = 1 ∧ ta.nameField ≠ "" ∧ jsTruthy r.recoverable_name = true then
    [("name_from_related", jsTrim (r.recoverable_name.getD ""))] else [])

/-- The record constructed for each surviving detail row (agent-tools.ts
lines 249-283). -/
def buildRecord (ta : TableAnalysis) (r : DetailRow) : MissingInfoRecord where
  candidate_id := jsOrStr r.record_id (jsOrStr r.id "unknown")
  full_name := jsOrNull (rowLookup r (if ta.nameField = "" then "name" else ta.nameField))
  email := jsOrNull (rowLookup r (if ta.emailField = "" then "email" else ta.emailField))
  phone_number := jsOrNull (rowLookup r (if ta.phoneField = "" then "phone" else ta.phoneField))
  business_unit_id := jsOrNullInt r.business_unit_id
  missing_fields := recordMissingFields ta r
  recoverable_fields := recordRecoverableFields ta r
  recovery_sources := recordRecoverySources ta r
  priority := categorizeCandidatePriority (recordMissingFields ta r) (recordRecoverableFields ta r)

/-- Step 5 of the detect operation: filter rows with at least one missing
flag set, then build records (agent-tools.ts lines 247-283). -/
def assembleReport (ta : TableAnalysis) (candidatesData : List DetailRow) : List MissingInfoRecord :=
  (candidatesData.filter fun record =>
      record.missing_email == 1 || record.missing_phone == 1 || record.missing_name == 1).map
    (buildRecord ta)

/-- The single row consumed from the summary statement's result
(agent-tools.ts lines 239, 293-300; the percentage columns of the result
are not read back by the source). -/
structure SummaryRow where
  total_records : Nat
  missing_email : Nat
  missing_phone : Nat
  missing_name : Nat
deriving Repr, DecidableEq

/-- `Math.round((recoverable / missing) * 100)` with a zero guard
(agent-tools.ts lines 293-294), modelled as exact rational rounding
(`Math.round x = floor (x + 1/2)` for the nonnegative values arising here). -/
def recoveryRate (recoverable missing : Nat) : Nat :=
  if 0 < missing then (200 * recoverable + missing) / (2 * missing) else 0

/-- `missingInfoReport.filter(r => r.recoverable_fields.some(f => f.includes(pat))).length`
(agent-tools.ts lines 291-292). -/
def countRecoverable (report : List MissingInfoRecord) (pat : String) : Nat :=
  (report.filter fun r => r.recoverable_fields.any fun f => strIncludes f pat).length

/-- The `MissingInfoSummary` interface (agent-tools.ts lines 126-135). -/
structure MissingInfoSummary where
  total_candidates : Nat
  candidates_missing_phone : Nat
  candidates_missing_name : Nat
  candidates_missing_email : Nat
  phone_recovery_rate : Nat
  name_recovery_rate : Nat
  recoverable_phones : Nat
  recoverable_names : Nat
deriving Repr, DecidableEq

/-- The `recovery_analysis` object of the success payload
(agent-tools.ts lines 323-333). -/
structure RecoveryAnalysis where
  total_recoverable : Nat
  phone_recovery_available : Nat
  name_recovery_available : Nat
  recovery_sources : List String
  recommended_actions : List String
deriving Repr, DecidableEq

/-- The `recommended_actions` list with its `.filter(Boolean)`
(agent-tools.ts lines 328-332). -/
def recommendedActions (recoverableNames recoverablePhones missingEmail : Nat) : List String :=
  ([if 0 < recoverableNames then
      some ("Update " ++ toString recoverableNames ++ " missing names from related tables")
    else none,
    if 0 < recoverablePhones then
      some ("Update " ++ toString recoverablePhones ++ " missing phone numbers from related tables")
    else none,
    if 0 < missingEmail then
      some (toString missingEmail ++
        " records missing email addresses (critical - requires manual review)")
    else none]).filterMap id

/-- The `query_info` object of the success payload (agent-tools.ts lines 334-339). -/
structure QueryInfo where
  included_recovery_analysis : Bool
  results_limited_to : Nat
  priority_filter : String
  auto_discovered_schema : Bool
deriving Repr, DecidableEq

/-- The `field_mapping` object of the success payload (agent-tools.ts lines 314-319). -/
structure FieldMapping where
  email_field : String
  phone_field : String
  name_field : String
  id_field : String
deriving Repr, DecidableEq

/-- The success payload of the detect operation (agent-tools.ts lines 307-340). -/
structure DetectSuccess where
  message : String
  main_table : String
  discovered_tables : List String
  recovery_tables : List String
  field_mapping : FieldMapping
  summary : MissingInfoSummary
  missing_info_report : List MissingInfoRecord
  recovery_analysis : Option RecoveryAnalysis
  query_info : QueryInfo
deriving Repr, DecidableEq

/-- A structured `{success:false, ...}` return object of the detect
operation: machine-readable `error`, human-readable `message`, optional
`suggestion`; `tables` carries `availableTools`/`availableTables` where the
source includes one, `details` the wrapped underlying message where present. -/
structure DetectFailure where
  error : String
  message : String
  suggestion : Option String
  tables : List String
  details : Option String
deriving Repr, DecidableEq

/-- The value returned by the detect operation's `execute`. -/
inductive DetectOutcome
  | failure (f : DetectFailure)
  | success (s : DetectSuccess)
deriving Repr, DecidableEq

/-- The tool input after zod parsing and defaulting (agent-tools.ts lines 141-150). -/
structure DetectInput where
  includeRecoveryAnalysis : Bool := true
  limitResults : Nat := 50
  priorityFilter : Option Priority := none
  autoDiscoverTables : Bool := true
deriving Repr, DecidableEq

/-- The external query executor: the responses the MCP `query` tool gives
to each of the three statements the operation issues, as a function of the
statement text. A `.error` response models the awaited promise rejecting
(a thrown exception at the call site). -/
structure QueryExec where
  schemaResult : String → Except String (List SchemaRow)
  summaryResult : String → Except String SummaryRow
  detailedResult : String → Except String (List DetailRow)

/-- The object returned by `mcpClient.getTools()`: its key set and the
optional `query` tool. -/
structure DbTools where
  names : List String
  queryTool : Option QueryExec

/-- The external world of one detect invocation: `mcpClient.getTools()`
either throws (`.error`) or returns the tools object. -/
structure DbWorld where
  getToolsResult : Except String DbTools

/-- The catch-all failure object of the outer `try`/`catch`
(agent-tools.ts lines 342-350). -/
def catchAllFailure (e : String) : DetectFailure where
  error := "Failed to detect missing information"
  message := e
  suggestion := some "Check database connection and table structure"
  tables := []
  details := none

/-- The success payload assembly, Steps 5-7 and the final return object
(agent-tools.ts lines 247-340). -/
def buildDetectSuccess (input : DetectInput) (ta : TableAnalysis) (summary : SummaryRow)
    (candidatesData : List DetailRow) : DetectSuccess :=
  let missingInfoReport := assembleReport ta candidatesData
  let filteredReport :=
    match input.priorityFilter with
    | some p => missingInfoReport.filter fun record => record.priority == p
    | none => missingInfoReport
  let recoverablePhones := countRecoverable missingInfoReport "phone"
  let recoverableNames := countRecoverable missingInfoReport "name"
  let phoneRecoveryRate := recoveryRate recoverablePhones summary.missing_phone
  let nameRecoveryRate := recoveryRate recoverableNames summary.missing_name
  { message := "Found " ++ toString filteredReport.length ++
      " records with missing information in table " ++ sqlQuote ++ ta.mainTable ++ sqlQuote
    main_table := ta.mainTable
    discovered_tables := ta.allTables
    recovery_tables := ta.recoveryTables
    field_mapping :=
      { email_field := ta.emailField
        phone_field := ta.phoneField
        name_field := ta.nameField
        id_field := ta.idField }
    summary :=
      { total_candidates := summary.total_records
        candidates_missing_phone := summary.missing_phone
        candidates_missing_name := summary.missing_name
        candidates_missing_email := summary.missing_email
        phone_recovery_rate := phoneRecoveryRate
        name_recovery_rate := nameRecoveryRate
        recoverable_phones := recoverablePhones
        recoverable_names := recoverableNames }
    missing_info_report := filteredReport
    recovery_analysis :=
      if input.includeRecoveryAnalysis then
        some
          { total_recoverable := recoverablePhones + recoverableNames
            phone_recovery_available := recoverablePhones
            name_recovery_available := recoverableNames
            recovery_sources := ta.recoveryTables
            recommended_actions :=
              recommendedActions recoverableNames recoverablePhones summary.missing_email }
      else none
    query_info :=
      { included_recovery_analysis := input.includeRecoveryAnalysis
        results_limited_to := input.limitResults
        priority_filter :=
          match input.priorityFilter with
          | some p => p.toStr
          | none => "none"
        auto_discovered_schema := input.autoDiscoverTables } }

/-- The body of the detect operation's `execute` inside the outer `try`
(agent-tools.ts lines 148-341). A `.error` result models an exception
reaching the outer `catch`; structured `{success:false}` returns are `.ok
(.failure _)`. The `mcpClient.getTools()` call sits in its own inner
`try`/`catch` (lines 154-164), so its rejection never reaches the outer one. -/
def detectBody (input : DetectInput) (world : DbWorld) : Except String DetectOutcome :=
  match world.getToolsResult with
  | .error e =>
    .ok (.failure
      { error := "Database connection failed"
        message := "Unable to connect to the PostgreSQL database via MCP."
        suggestion := some "Check that the MCP PostgreSQL server is running and properly configured."
        tables := []
        details := some e })
  | .ok databaseTools =>
    match databaseTools.queryTool with
    | none =>
      .ok (.failure
        { error := "Database query tool not available"
          message := "The PostgreSQL query tool could not be found in the MCP server."
          suggestion := some "Check that the @modelcontextprotocol/server-postgres is properly configured."
          tables := databaseTools.names
          details := none })
    | some queryTool =>
      match queryTool.schemaResult discoveryQuery with
      | .error e => .error e
      | .ok schemaData =>
        if schemaData.length = 0 then
          .ok (.failure
            { error := "No database tables found"
              message := "Could not find any tables in the public schema."
              suggestion := some "Check database connection and ensure tables exist."
              tables := []
              details := none })
        else
          let tableAnalysis := analyzeTableSchema schemaData
          if tableAnalysis.mainTable = "" then
            .ok (.failure
              { error := "No main contact/candidate table found"
                message := "Could not identify a primary table for contacts or candidates."
                suggestion := some "Ensure there is a table with fields like email, name, or phone for contact information."
                tables := tableAnalysis.allTables
                details := none })
          else
            match queryTool.summaryResult (buildSummaryQuery tableAnalysis) with
            | .error e => .error e
            | .ok summary =>
              match queryTool.detailedResult
                  (buildDetailedQuery tableAnalysis input.includeRecoveryAnalysis
                    input.limitResults) with
              | .error e => .error e
              | .ok candidatesData =>
                .ok (.success (buildDetectSuccess input tableAnalysis summary candidatesData))

/-- The detect operation's `execute` with the outer `try`/`catch`
(agent-tools.ts lines 147-351): every exception of the body is converted
into the catch-all structured failure. -/
def detectMissingInfoExecute (input : DetectInput) (world : DbWorld) : DetectOutcome :=
  match detectBody input world with
  | .ok r => r
  | .error e => .failure (catchAllFailure e)

/-- The summary of a successful detect outcome, if any. -/
def DetectOutcome.summaryPart : DetectOutcome → Option MissingInfoSummary
  | .success s => some s.summary
  | .failure _ => none

/-- The returned record list of a successful detect outcome, if any. -/
def DetectOutcome.reportPart : DetectOutcome → Option (List MissingInfoRecord)
  | .success s => some s.missing_info_report
  | .failure _ => none

/-- The outcome of the underlying Gmail transport call
(`sendEmailWithGmailAPI` either resolves or rejects with a message). -/
inductive SendTransport
  | ok
  | transportError (msg : String)

/-- The `{ success: true }` return object of the send operation. -/
structure SendResult where
  success : Bool
deriving Repr, DecidableEq

/-- The send operation's `execute` (agent-tools.ts lines 94-107). A missing
required field throws (`.error`) before any transport call; a transport
rejection is caught and re-thrown wrapped (`.error`); otherwise `{success:
true}` is returned. `!to` on the zod-validated string inputs tests for the
empty string. -/
def sendEmailExecute (recipient subject body : String) (transport : SendTransport) :
    Except String SendResult :=
  if recipient = "" ∨ subject = "" ∨ body = "" then
    .error "Missing required input fields: to, subject, body"
  else
    match transport with
    | .ok => .ok { success := true }
    | .transportError m => .error ("Failed to send email: " ++ m)

/- Concrete inputs used by the counterexample and witness theorems below. -/

/-- A catalog row with the given table and column name. -/
def mkRow (t c : String) : SchemaRow :=
  { table_name := t, column_name := c, data_type := "text", is_nullable := "YES" }

/-- A catalog whose first-discovered table has the empty string as its name
and contact columns; `information_schema` never produces this, but the
analyzer's input domain contains it. -/
def emptyNameCatalog : List SchemaRow :=
  [mkRow "" "email", mkRow "users" "email"]

/-- A catalog with only the empty-named contact table. -/
def emptyNameOnlyCatalog : List SchemaRow :=
  [mkRow "" "email"]

/-- `users` and `candidates`, each with `{id, email, phone_number, full_name}`,
`users` first. -/
def usersFirstCatalog : List SchemaRow :=
  [mkRow "users" "id", mkRow "users" "email",
   mkRow "users" "phone_number", mkRow "users" "full_name",
   mkRow "candidates" "id", mkRow "candidates" "email",
   mkRow "candidates" "phone_number", mkRow "candidates" "full_name"]

/-- The same two tables, `candidates` first. -/
def candidatesFirstCatalog : List SchemaRow :=
  [mkRow "candidates" "id", mkRow "candidates" "email",
   mkRow "candidates" "phone_number", mkRow "candidates" "full_name",
   mkRow "users" "id", mkRow "users" "email",
   mkRow "users" "phone_number", mkRow "users" "full_name"]

/-- A catalog whose email column has mixed case in the source schema. -/
def mixedCaseCatalog : List SchemaRow :=
  [mkRow "candidates" "Id", mkRow "candidates" "Email", mkRow "candidates" "Full_Name"]

/-- A catalog with no contact-like column in any table. -/
def noContactCatalog : List SchemaRow :=
  [mkRow "orders" "amount", mkRow "orders" "total", mkRow "items" "sku"]

/-- A catalog whose email column is named `contact_email`, not `email`. -/
def contactEmailCatalog : List SchemaRow :=
  [mkRow "candidates" "id", mkRow "candidates" "contact_email",
   mkRow "candidates" "phone_number", mkRow "candidates" "full_name"]

/-- A catalog with the canonical column names plus two recovery tables. -/
def canonicalCatalog : List SchemaRow :=
  [mkRow "candidates" "id", mkRow "candidates" "email",
   mkRow "candidates" "phone_number", mkRow "candidates" "full_name",
   mkRow "resumes" "candidate_id", mkRow "resumes" "content_json",
   mkRow "application_forms" "candidate_id", mkRow "application_forms" "content_json"]

/-- A detail row with the email flag set and nothing recoverable. -/
def rowMissingEmail : DetailRow :=
  { record_id := some "7", id := none, missing_email := 1, missing_phone := 0,
    missing_name := 0, recoverable_phone := none, recoverable_name := none,
    business_unit_id := none, attrs := [("record_id", "7")] }

/-- A detail row missing phone and name, with a recoverable phone value. -/
def rowMissingPhoneName : DetailRow :=
  { record_id := some "9", id := none, missing_email := 0, missing_phone := 1,
    missing_name := 1, recoverable_phone := some " +33 6 12 34 56 78 ",
    recoverable_name := none, business_unit_id := some 3,
    attrs := [("record_id", "9"), ("email", "x@y.z")] }

/-- A concrete structural model with two recovery tables and canonical fields. -/
def taTwoRecovery : TableAnalysis :=
  analyzeTableSchema canonicalCatalog

/-- A world whose schema-discovery query rejects: the thrown error reaches
the outer catch of the detect operation. -/
def throwingWorld : DbWorld :=
  { getToolsResult :=
      .ok
        { names := ["query"]
          queryTool :=
            some
              { schemaResult := fun _ => .error "boom"
                summaryResult := fun _ => .error "not reached"
                detailedResult := fun _ => .error "not reached" } } }

/-- The grouping fold step (one `forEach` iteration of agent-tools.ts
lines 359-364). -/
def groupStep (acc : List (String × List String)) (row : SchemaRow) :
    List (String × List String) :=
  insertColumn acc row.table_name (strToLower row.column_name)

/-- A catalog in which a later table scores strictly higher than the first
qualifying one (`users`: 10 + 1 = 11, `candidates`: 10 + 7 = 17). -/
def higherScoreLaterCatalog : List SchemaRow :=
  [mkRow "users" "email",
   mkRow "candidates" "id", mkRow "candidates" "email",
   mkRow "candidates" "phone_number", mkRow "candidates" "full_name",
   mkRow "candidates" "status", mkRow "candidates" "source",
   mkRow "candidates" "notes"]
/- Helper lemmas about the selection loop and the grouping fold. -/

/-- Once a table with a nonempty name has been selected, later loop
iterations leave the state unchanged (the JS guard `!mainTable` fails). -/
theorem foldl_selStep_frozen (tcs : List (String × List String)) (st : SelState)
    (h : st.mainTable ≠ "") : tcs.foldl selStep st = st := by
  induction tcs with
  | nil => rfl
  | cons tc rest ih =>
    have hstep : selStep st tc = st := by
      simp [selStep, h]
    rw [List.foldl_cons, hstep, ih]

/-- When every table name is nonempty, the selection loop computes the
first entry satisfying the guard. -/
theorem foldl_selStep_eq_find (tcs : List (String × List String)) (st : SelState)
    (hst : st.mainTable = "") (hne : ∀ tc ∈ tcs, tc.1 ≠ "") :
    tcs.foldl selStep st =
      match tcs.find? qualifiesB with
      | some tc => mkSelected tc
      | none => st := by
  induction tcs with
  | nil => simp
  | cons tc rest ih =>
    by_cases hq : qualifiesB tc = true
    · have hsel : selStep st tc = mkSelected tc := by
        simp [selStep, hq, hst]
      have hmain : (mkSelected tc).mainTable ≠ "" := hne tc (by simp)
      rw [List.foldl_cons, hsel, foldl_selStep_frozen rest _ hmain,
        List.find?_cons_of_pos _ hq]
    · have hsel : selStep st tc = st := by
        simp [selStep, hq]
      rw [List.foldl_cons, hsel, ih (fun x hx => hne x (by simp [hx])),
        List.find?_cons_of_neg _ (by simp [hq])]

/-- The selection loop only ever produces the initial state or the
selection of one of the traversed entries. -/
theorem foldl_selStep_inv (P : SelState → Prop) (tcs : List (String × List String))
    (st : SelState) (hst : P st) (hstep : ∀ tc ∈ tcs, P (mkSelected tc)) :
    P (tcs.foldl selStep st) := by
  induction tcs generalizing st with
  | nil => exact hst
  | cons tc rest ih =>
    rw [List.foldl_cons]
    refine ih _ ?_ ?_
    · by_cases h : (qualifiesB tc && (st.mainTable == "")) = true
      · simpa [selStep, h] using hstep tc (by simp)
      · simpa [selStep, h] using hst
    · intro tc' h'
      exact hstep tc' (by simp [h'])

/-- A nonempty column list gives a positive table score. -/
theorem tableScore_pos (t : String) (cols : List String) (h : cols ≠ []) :
    0 < tableScore t cols := by
  have hlen : 0 < cols.length := List.length_pos.mpr h
  unfold tableScore
  omega

/-- Keys after `insertColumn` come from the old keys or the inserted table. -/
theorem insertColumn_keys (acc : List (String × List String)) (t c : String) :
    ∀ x ∈ insertColumn acc t c, x.1 = t ∨ ∃ y ∈ acc, x.1 = y.1 := by
  induction acc with
  | nil =>
    intro x hx
    simp [insertColumn] at hx
    subst hx
    exact Or.inl rfl
  | cons hd rest ih =>
    intro x hx
    obtain ⟨t', cs⟩ := hd
    simp only [insertColumn] at hx
    by_cases he : t' = t
    · rw [if_pos he] at hx
      rcases List.mem_cons.mp hx with h | h
      · subst h; exact Or.inr ⟨(t', cs), by simp, rfl⟩
      · exact Or.inr ⟨x, by simp [h], rfl⟩
    · rw [if_neg he] at hx
      rcases List.mem_cons.mp hx with h | h
      · subst h; exact Or.inr ⟨(t', cs), by simp, rfl⟩
      · rcases ih x h with h2 | ⟨y, hy, h2⟩
        · exact Or.inl h2
        · exact Or.inr ⟨y, by simp [hy], h2⟩

/-- Columns after `insertColumn` come from the old buckets or the inserted column. -/
theorem insertColumn_cols (acc : List (String × List String)) (t c : String) :
    ∀ x ∈ insertColumn acc t c, ∀ col ∈ x.2, col = c ∨ ∃ y ∈ acc, col ∈ y.2 := by
  induction acc with
  | nil =>
    intro x hx col hcol
    simp [insertColumn] at hx
    subst hx
    simp at hcol
    exact Or.inl hcol
  | cons hd rest ih =>
    intro x hx col hcol
    obtain ⟨t', cs⟩ := hd
    simp only [insertColumn] at hx
    by_cases he : t' = t
    · rw [if_pos he] at hx
      rcases List.mem_cons.mp hx with h | h
      · subst h
        simp only at hcol
        rcases List.mem_append.mp hcol with h2 | h2
        · exact Or.inr ⟨(t', cs), by simp, h2⟩
        · simp at h2; exact Or.inl h2
      · exact Or.inr ⟨x, by simp [h], hcol⟩
    · rw [if_neg he] at hx
      rcases List.mem_cons.mp hx with h | h
      · subst h; exact Or.inr ⟨(t', cs), by simp, hcol⟩
      · rcases ih x h col hcol with h2 | ⟨y, hy, h2⟩
        · exact Or.inl h2
        · exact Or.inr ⟨y, by simp [hy], h2⟩

/-- Buckets stay nonempty under `insertColumn`. -/
theorem insertColumn_ne_nil (acc : List (String × List String)) (t c : String)
    (hacc : ∀ x ∈ acc, x.2 ≠ []) : ∀ x ∈ insertColumn acc t c, x.2 ≠ [] := by
  induction acc with
  | nil =>
    intro x hx
    simp [insertColumn] at hx
    subst hx
    simp
  | cons hd rest ih =>
    intro x hx
    obtain ⟨t', cs⟩ := hd
    simp only [insertColumn] at hx
    by_cases he : t' = t
    · rw [if_pos he] at hx
      rcases List.mem_cons.mp hx with h | h
      · subst h; simp
      · exact hacc x (by simp [h])
    · rw [if_neg he] at hx
      rcases List.mem_cons.mp hx with h | h
      · subst h; exact hacc (t', cs) (by simp)
      · exact ih (fun y hy => hacc y (by simp [hy])) x h

/-- A column present in some bucket stays present after `insertColumn`. -/
theorem insertColumn_preserves_col (acc : List (String × List String)) (t c col : String)
    (h : ∃ x ∈ acc, col ∈ x.2) : ∃ x ∈ insertColumn acc t c, col ∈ x.2 := by
  induction acc with
  | nil => simp at h
  | cons hd rest ih =>
    obtain ⟨t', cs⟩ := hd
    rcases h with ⟨x, hx, hcol⟩
    rcases List.mem_cons.mp hx with hxx | hxx
    · subst hxx
      simp only [insertColumn]
      by_cases he : t' = t
      · rw [if_pos he]
        exact ⟨(t', cs ++ [c]), by simp, by simp [hcol]⟩
      · rw [if_neg he]
        exact ⟨(t', cs), by simp, hcol⟩
    · simp only [insertColumn]
      by_cases he : t' = t
      · rw [if_pos he]
        exact ⟨x, by simp [hxx], hcol⟩
      · rw [if_neg he]
        rcases ih ⟨x, hxx, hcol⟩ with ⟨y, hy, h2⟩
        exact ⟨y, by simp [hy], h2⟩

/-- The inserted column is present after `insertColumn`. -/
theorem insertColumn_mem_col (acc : List (String × List String)) (t c : String) :
    ∃ x ∈ insertColumn acc t c, c ∈ x.2 := by
  induction acc with
  | nil => exact ⟨(t, [c]), by simp [insertColumn], by simp⟩
  | cons hd rest ih =>
    obtain ⟨t', cs⟩ := hd
    simp only [insertColumn]
    by_cases he : t' = t
    · rw [if_pos he]
      exact ⟨(t', cs ++ [c]), by simp, by simp⟩
    · rw [if_neg he]
      rcases ih with ⟨y, hy, h2⟩
      exact ⟨y, by simp [hy], h2⟩

/-- Every key of the grouped catalog is the table name of some input row. -/
theorem groupColumns_keys_from (rows : List SchemaRow) (acc : List (String × List String)) :
    ∀ x ∈ rows.foldl groupStep acc,
      (∃ y ∈ acc, x.1 = y.1) ∨ ∃ r ∈ rows, x.1 = r.table_name := by
  induction rows generalizing acc with
  | nil =>
    intro x hx
    exact Or.inl ⟨x, hx, rfl⟩
  | cons row rest ih =>
    intro x hx
    rw [List.foldl_cons] at hx
    rcases ih (groupStep acc row) x hx with ⟨y, hy, hxy⟩ | ⟨r, hr, hxr⟩
    · rcases insertColumn_keys acc row.table_name (strToLower row.column_name) y hy with h2 | ⟨z, hz, h2⟩
      · exact Or.inr ⟨row, by simp, hxy.trans h2⟩
      · exact Or.inl ⟨z, hz, hxy.trans h2⟩
    · exact Or.inr ⟨r, by simp [hr], hxr⟩

/-- Every column of the grouped catalog is the lowercased column name of
some input row. -/
theorem groupColumns_cols_from (rows : List SchemaRow) (acc : List (String × List String)) :
    ∀ x ∈ rows.foldl groupStep acc, ∀ col ∈ x.2,
      (∃ y ∈ acc, col ∈ y.2) ∨ ∃ r ∈ rows, col = (strToLower r.column_name) := by
  induction rows generalizing acc with
  | nil =>
    intro x hx col hcol
    exact Or.inl ⟨x, hx, hcol⟩
  | cons row rest ih =>
    intro x hx col hcol
    rw [List.foldl_cons] at hx
    rcases ih (groupStep acc row) x hx col hcol with ⟨y, hy, h2⟩ | ⟨r, hr, h2⟩
    · rcases insertColumn_cols acc row.table_name (strToLower row.column_name) y hy col h2 with h3 | ⟨z, hz, h3⟩
      · exact Or.inr ⟨row, by simp, h3⟩
      · exact Or.inl ⟨z, hz, h3⟩
    · exact Or.inr ⟨r, by simp [hr], h2⟩

/-- Buckets of the grouped catalog are never empty. -/
theorem groupColumns_ne_nil (rows : List SchemaRow) (acc : List (String × List String))
    (hacc : ∀ x ∈ acc, x.2 ≠ []) : ∀ x ∈ rows.foldl groupStep acc, x.2 ≠ [] := by
  induction rows generalizing acc with
  | nil => exact hacc
  | cons row rest ih =>
    exact ih (groupStep acc row)
      (insertColumn_ne_nil acc row.table_name (strToLower row.column_name) hacc)

/-- A column present in some bucket stays present through the whole fold. -/
theorem foldl_groupStep_preserves_col (rows : List SchemaRow)
    (acc : List (String × List String)) (col : String) (h : ∃ x ∈ acc, col ∈ x.2) :
    ∃ x ∈ rows.foldl groupStep acc, col ∈ x.2 := by
  induction rows generalizing acc with
  | nil => exact h
  | cons row rest ih =>
    exact ih (groupStep acc row) (insertColumn_preserves_col _ _ _ _ h)

/-- Every input row's lowercased column is present in some bucket. -/
theorem groupColumns_complete (rows : List SchemaRow) (acc : List (String × List String)) :
    ∀ r ∈ rows, ∃ x ∈ rows.foldl groupStep acc, (strToLower r.column_name) ∈ x.2 := by
  induction rows generalizing acc with
  | nil => simp
  | cons row rest ih =>
    intro r hr
    rw [List.foldl_cons]
    rcases List.mem_cons.mp hr with h | h
    · subst h
      exact foldl_groupStep_preserves_col rest (groupStep acc r) _
        (insertColumn_mem_col acc r.table_name (strToLower r.column_name))
    · exact ih (groupStep acc row) r h

/-- `groupColumns` in terms of the fold step. -/
theorem groupColumns_eq_foldl (rows : List SchemaRow) :
    groupColumns rows = rows.foldl groupStep [] := rfl

/-- Grouped table names are nonempty when the catalog's are. -/
theorem groupColumns_keys_ne (rows : List SchemaRow)
    (h : ∀ r ∈ rows, r.table_name ≠ "") : ∀ x ∈ groupColumns rows, x.1 ≠ "" := by
  intro x hx
  rcases groupColumns_keys_from rows [] x hx with ⟨y, hy, _⟩ | ⟨r, hr, hxr⟩
  · simp at hy
  · rw [hxr]
    exact h r hr

/-- The analyzer's selection state equals the first-`find?`
characterization when table names are nonempty. -/
theorem analyze_eq_find (s : List SchemaRow) (hne : ∀ r ∈ s, r.table_name ≠ "") :
    (groupColumns s).foldl selStep ⟨"", "", "", "", ""⟩ =
      match (groupColumns s).find? qualifiesB with
      | some tc => mkSelected tc
      | none => ⟨"", "", "", "", ""⟩ :=
  foldl_selStep_eq_find _ _ rfl (groupColumns_keys_ne s hne)

/-- `find?` returns the head of the first qualifying split. -/
theorem find?_first_of_split {α : Type} (p : α → Bool) (l1 l2 : List α) (a : α)
    (hp : p a = true) (hprev : ∀ x ∈ l1, p x = false) :
    (l1 ++ a :: l2).find? p = some a := by
  induction l1 with
  | nil => simp [List.find?_cons_of_pos _ hp]
  | cons b rest ih =>
    have hb : p b = false := hprev b (by simp)
    simp only [List.cons_append]
    rw [List.find?_cons_of_neg _ (by simp [hb]),
      ih (fun x hx => hprev x (by simp [hx]))]

/-- Claim C1 (amended): for a catalog whose table names are all nonempty,
the analyzer picks as `mainTable` the first table in grouped discovery
order that has a contact-pattern column and positive score — whatever the
scores of the later tables (which may be strictly higher). -/
theorem analyze_selects_first_qualifying (schemaData : List SchemaRow)
    (hne : ∀ r ∈ schemaData, r.table_name ≠ "")
    (l1 l2 : List (String × List String)) (tc : String × List String)
    (hsplit : groupColumns schemaData = l1 ++ tc :: l2)
    (hq : qualifiesB tc = true)
    (hprev : ∀ x ∈ l1, qualifiesB x = false) :
    (analyzeTableSchema schemaData).mainTable = tc.1 := by
  have hfind : (groupColumns schemaData).find? qualifiesB = some tc := by
    rw [hsplit]
    exact find?_first_of_split _ _ _ _ hq hprev
  have hmain : (analyzeTableSchema schemaData).mainTable =
      ((groupColumns schemaData).foldl selStep ⟨"", "", "", "", ""⟩).mainTable := rfl
  rw [hmain, analyze_eq_find schemaData hne, hfind]
  rfl

/-- Witness for C1 (amended): in `higherScoreLaterCatalog` the later table
`candidates` scores strictly higher (17 vs 11) yet first-discovered
`users` is selected. -/
theorem analyze_selects_first_qualifying_witness :
    tableScore "users" ["email"] <
      tableScore "candidates"
        ["id", "email", "phone_number", "full_name", "status", "source", "notes"] ∧
    (analyzeTableSchema higherScoreLaterCatalog).mainTable = "users" :=
  ⟨by decide,
   analyze_selects_first_qualifying higherScoreLaterCatalog (by decide)
     [] [("candidates", ["id", "email", "phone_number", "full_name", "status", "source", "notes"])]
     ("users", ["email"]) (by decide) (by decide) (by simp)⟩

/-- Counterexample to C1 as stated: in `emptyNameCatalog` the
first-discovered table with positive score is the one named `""`, but the
analyzer returns the later table `users`, because the falsy empty-string
name leaves the JS `!mainTable` guard open. -/
theorem first_match_counterexample :
    qualifiesB ("", ["email"]) = true ∧
    qualifiesB ("users", ["email"]) = true ∧
    (groupColumns emptyNameCatalog).find? qualifiesB = some ("", ["email"]) ∧
    (analyzeTableSchema emptyNameCatalog).mainTable = "users" :=
  ⟨by decide, by decide, by decide, by decide⟩

/-- Claim C7 (amended): for a catalog whose table names are all nonempty,
`mainTable` is empty iff no row's lowercased column matches any contact
pattern family, and when it is empty all bound field names are empty.
(The amendment excludes the empty table name, whose JS falsiness breaks
both directions — see the counterexample.) -/
theorem analyze_empty_main_iff_no_contact (schemaData : List SchemaRow)
    (hne : ∀ r ∈ schemaData, r.table_name ≠ "") :
    (((analyzeTableSchema schemaData).mainTable = "") ↔
      ∀ r ∈ schemaData, colContactB (strToLower r.column_name) = false) ∧
    ((analyzeTableSchema schemaData).mainTable = "" →
      (analyzeTableSchema schemaData).emailField = "" ∧
      (analyzeTableSchema schemaData).phoneField = "" ∧
      (analyzeTableSchema schemaData).nameField = "" ∧
      (analyzeTableSchema schemaData).idField = "") := by
  have hG : ∀ x ∈ groupColumns schemaData, x.2 ≠ [] :=
    groupColumns_ne_nil schemaData [] (by simp)
  have hsel := analyze_eq_find schemaData hne
  have hm : (analyzeTableSchema schemaData).mainTable =
      ((groupColumns schemaData).foldl selStep ⟨"", "", "", "", ""⟩).mainTable := rfl
  have he : (analyzeTableSchema schemaData).emailField =
      ((groupColumns schemaData).foldl selStep ⟨"", "", "", "", ""⟩).emailField := rfl
  have hp : (analyzeTableSchema schemaData).phoneField =
      ((groupColumns schemaData).foldl selStep ⟨"", "", "", "", ""⟩).phoneField := rfl
  have hn0 : (analyzeTableSchema schemaData).nameField =
      ((groupColumns schemaData).foldl selStep ⟨"", "", "", "", ""⟩).nameField := rfl
  have hi : (analyzeTableSchema schemaData).idField =
      ((groupColumns schemaData).foldl selStep ⟨"", "", "", "", ""⟩).idField := rfl
  cases hF : (groupColumns schemaData).find? qualifiesB with
  | none =>
    have hnone := List.find?_eq_none.mp hF
    refine ⟨⟨fun _ r hr => ?_, fun _ => by rw [hm, hsel, hF]⟩, fun _ => ?_⟩
    · by_contra hc
      rcases groupColumns_complete schemaData [] r hr with ⟨x, hx, hcol⟩
      have hhas : hasContactFields x.2 = true := by
        simp only [hasContactFields, List.any_eq_true]
        exact ⟨_, hcol, by simpa using hc⟩
      have hq : qualifiesB x = true := by
        simp [qualifiesB, hhas, tableScore_pos x.1 x.2 (hG x hx)]
      exact hnone x hx hq
    · refine ⟨?_, ?_, ?_, ?_⟩
      · rw [he, hsel, hF]
      · rw [hp, hsel, hF]
      · rw [hn0, hsel, hF]
      · rw [hi, hsel, hF]
  | some tc =>
    have hmem := List.mem_of_find?_eq_some hF
    have hq := List.find?_some hF
    have hma : (analyzeTableSchema schemaData).mainTable = tc.1 := by
      rw [hm, hsel, hF]
      rfl
    have hne2 : tc.1 ≠ "" := groupColumns_keys_ne schemaData hne tc hmem
    have hfalse : (analyzeTableSchema schemaData).mainTable = "" → False := by
      intro h
      rw [hma] at h
      exact hne2 h
    refine ⟨⟨fun h => absurd h (fun h2 => hfalse h2), fun hall => ?_⟩,
      fun h => absurd (hfalse h) not_false⟩
    exfalso
    have hhas : hasContactFields tc.2 = true := by
      have := hq
      simp only [qualifiesB, Bool.and_eq_true] at this
      exact this.1
    rcases List.any_eq_true.mp hhas with ⟨col, hcol, hcc⟩
    rcases groupColumns_cols_from schemaData [] tc hmem col hcol with ⟨y, hy, _⟩ | ⟨r, hr, hcr⟩
    · simp at hy
    · rw [hcr] at hcc
      rw [hall r hr] at hcc
      exact Bool.false_ne_true hcc

/-- Witness for C7 (amended): on a catalog with no contact-like column the
characterization applies; its left-to-right direction gives empty bindings. -/
theorem analyze_empty_main_iff_no_contact_witness :
    (((analyzeTableSchema noContactCatalog).mainTable = "") ↔
      ∀ r ∈ noContactCatalog, colContactB (strToLower r.column_name) = false) ∧
    ((analyzeTableSchema noContactCatalog).mainTable = "" →
      (analyzeTableSchema noContactCatalog).emailField = "" ∧
      (analyzeTableSchema noContactCatalog).phoneField = "" ∧
      (analyzeTableSchema noContactCatalog).nameField = "" ∧
      (analyzeTableSchema noContactCatalog).idField = "") :=
  analyze_empty_main_iff_no_contact noContactCatalog (by decide)

/-- Counterexample to C7 as stated: a contact table named `""` leaves
`mainTable` empty (the claim's iff fails: a column did match) while the
bound email field is nonempty (the claim's second clause fails). -/
theorem empty_main_counterexample :
    (analyzeTableSchema emptyNameOnlyCatalog).mainTable = "" ∧
    colContactB (strToLower "email") = true ∧
    (analyzeTableSchema emptyNameOnlyCatalog).emailField = "email" ∧
    (analyzeTableSchema emptyNameOnlyCatalog).emailField ≠ "" :=
  ⟨by decide, by decide, by decide, by decide⟩

/-- Counterexample to C2 as stated: with `users` first in the input
sequence the analyzer resolves `mainTable` to `users`, not `candidates`;
the +10 bonus does not override discovery order (and `users` receives the
same bonus). -/
theorem candidates_bonus_counterexample :
    (analyzeTableSchema usersFirstCatalog).mainTable = "users" ∧
    (analyzeTableSchema usersFirstCatalog).mainTable ≠ "candidates" :=
  ⟨by decide, by decide⟩

/-- Claim C2 (amended): for the two-table catalog of the claim, `mainTable`
resolves to whichever table appears first in the input sequence; the two
tables score identically (10 + 4 each), so the entity-name bonus never
makes `candidates` win over an earlier `users`. -/
theorem candidates_users_first_encountered :
    (analyzeTableSchema candidatesFirstCatalog).mainTable = "candidates" ∧
    (analyzeTableSchema usersFirstCatalog).mainTable = "users" ∧
    tableScore "candidates" ["id", "email", "phone_number", "full_name"] =
      tableScore "users" ["id", "email", "phone_number", "full_name"] :=
  ⟨by decide, by decide, by decide⟩

/-- Counterexample to C4 as stated: a source column named `Email` is bound
and emitted as `email` — the original case of column identifiers is not
preserved in the emitted identifiers. -/
theorem emitted_case_counterexample :
    (analyzeTableSchema mixedCaseCatalog).emailField = "email" ∧
    (analyzeTableSchema mixedCaseCatalog).emailField ≠ "Email" ∧
    (analyzeTableSchema mixedCaseCatalog).nameField = "full_name" ∧
    (analyzeTableSchema mixedCaseCatalog).nameField ≠ "Full_Name" :=
  ⟨by decide, by decide, by decide, by decide⟩

/-- Claim C4 (amended): column names are lowercased when the catalog is
grouped, and the lowercased names are what both pattern matching and the
emitted bindings use: every bound field of the result is the *lowercased*
column name of some catalog row (or the literal default `id`), while
`mainTable` preserves the original table name of some row. -/
theorem analyze_fields_are_lowercased (schemaData : List SchemaRow) :
    ((analyzeTableSchema schemaData).mainTable = "" ∨
      ∃ r ∈ schemaData, (analyzeTableSchema schemaData).mainTable = r.table_name) ∧
    ((analyzeTableSchema schemaData).emailField = "" ∨
      ∃ r ∈ schemaData, (analyzeTableSchema schemaData).emailField = strToLower r.column_name) ∧
    ((analyzeTableSchema schemaData).phoneField = "" ∨
      ∃ r ∈ schemaData, (analyzeTableSchema schemaData).phoneField = strToLower r.column_name) ∧
    ((analyzeTableSchema schemaData).nameField = "" ∨
      ∃ r ∈ schemaData, (analyzeTableSchema schemaData).nameField = strToLower r.column_name) ∧
    ((analyzeTableSchema schemaData).idField = "" ∨
      (analyzeTableSchema schemaData).idField = "id" ∨
      ∃ r ∈ schemaData, (analyzeTableSchema schemaData).idField = strToLower r.column_name) := by
  refine foldl_selStep_inv
    (fun st =>
      (st.mainTable = "" ∨ ∃ r ∈ schemaData, st.mainTable = r.table_name) ∧
      (st.emailField = "" ∨ ∃ r ∈ schemaData, st.emailField = strToLower r.column_name) ∧
      (st.phoneField = "" ∨ ∃ r ∈ schemaData, st.phoneField = strToLower r.column_name) ∧
      (st.nameField = "" ∨ ∃ r ∈ schemaData, st.nameField = strToLower r.column_name) ∧
      (st.idField = "" ∨ st.idField = "id" ∨
        ∃ r ∈ schemaData, st.idField = strToLower r.column_name))
    (groupColumns schemaData) ⟨"", "", "", "", ""⟩ (by simp) ?_
  intro tc htc
  refine ⟨?_, ?_, ?_, ?_, ?_⟩
  · rcases groupColumns_keys_from schemaData [] tc htc with ⟨y, hy, _⟩ | ⟨r, hr, h⟩
    · simp at hy
    · exact Or.inr ⟨r, hr, h⟩
  · cases hfind : tc.2.find? (matchesAny emailFieldPatterns) with
    | none => exact Or.inl (by simp [mkSelected, hfind])
    | some c =>
      have hc := List.mem_of_find?_eq_some hfind
      rcases groupColumns_cols_from schemaData [] tc htc c hc with ⟨y, hy, _⟩ | ⟨r, hr, h⟩
      · simp at hy
      · exact Or.inr ⟨r, hr, by simp [mkSelected, hfind, h]⟩
  · cases hfind : tc.2.find? (matchesAny phoneFieldPatterns) with
    | none => exact Or.inl (by simp [mkSelected, hfind])
    | some c =>
      have hc := List.mem_of_find?_eq_some hfind
      rcases groupColumns_cols_from schemaData [] tc htc c hc with ⟨y, hy, _⟩ | ⟨r, hr, h⟩
      · simp at hy
      · exact Or.inr ⟨r, hr, by simp [mkSelected, hfind, h]⟩
  · cases hfind : tc.2.find? (matchesAny nameFieldPatterns) with
    | none => exact Or.inl (by simp [mkSelected, hfind])
    | some c =>
      have hc := List.mem_of_find?_eq_some hfind
      rcases groupColumns_cols_from schemaData [] tc htc c hc with ⟨y, hy, _⟩ | ⟨r, hr, h⟩
      · simp at hy
      · exact Or.inr ⟨r, hr, by simp [mkSelected, hfind, h]⟩
  · cases hfind : tc.2.find? (matchesAny idFieldPatterns) with
    | none => exact Or.inr (Or.inl (by simp [mkSelected, hfind]))
    | some c =>
      have hc := List.mem_of_find?_eq_some hfind
      rcases groupColumns_cols_from schemaData [] tc htc c hc with ⟨y, hy, _⟩ | ⟨r, hr, h⟩
      · simp at hy
      · exact Or.inr (Or.inr ⟨r, hr, by simp [mkSelected, hfind, h]⟩)

/-- Claim C3: `categorizeCandidatePriority` implements exactly the
first-match decision order of the specification: `email` missing gives
Critical; else both `phone_number` and `full_name` missing gives High;
else a missing-and-not-recoverable `phone_number` or `full_name` gives
Medium; else Low. -/
theorem categorize_decision_order (missing recoverable : List String) :
    categorizeCandidatePriority missing recoverable =
      if "email" ∈ missing then Priority.Critical
      else if "phone_number" ∈ missing ∧ "full_name" ∈ missing then Priority.High
      else if ("phone_number" ∈ missing ∧ "phone_number" ∉ recoverable) ∨
              ("full_name" ∈ missing ∧ "full_name" ∉ recoverable) then Priority.Medium
      else Priority.Low := by
  simp only [categorizeCandidatePriority]
  by_cases h1 : "email" ∈ missing <;>
  by_cases h2 : "phone_number" ∈ missing <;>
  by_cases h3 : "full_name" ∈ missing <;>
  by_cases h4 : "phone_number" ∈ recoverable <;>
  by_cases h5 : "full_name" ∈ recoverable <;>
  simp_all [List.elem_iff]

/-- Claim C6: in every record assembled by the report step,
`recoverableFields` is a subset of `missingFields` — a recoverable push
happens only inside the branch that pushed the same field as missing. -/
theorem recoverable_subset_of_missing (ta : TableAnalysis) (rows : List DetailRow)
    (record : MissingInfoRecord) (h : record ∈ assembleReport ta rows) :
    record.recoverable_fields ⊆ record.missing_fields := by
  rcases List.mem_map.mp h with ⟨r, hr, rfl⟩
  intro x hx
  simp only [buildRecord] at hx ⊢
  simp only [recordRecoverableFields, List.mem_append] at hx
  simp only [recordMissingFields, List.mem_append]
  rcases hx with hx | hx
  · split_ifs at hx with hc
    · simp only [List.mem_singleton] at hx
      subst hx
      refine Or.inl (Or.inr ?_)
      rw [if_pos ⟨hc.1, hc.2.1⟩]
      simp
    · simp at hx
  · split_ifs at hx with hc
    · simp only [List.mem_singleton] at hx
      subst hx
      refine Or.inr ?_
      rw [if_pos ⟨hc.1, hc.2.1⟩]
      simp
    · simp at hx

/-- Witness for C6 at a concrete model and row (missing phone and name,
recoverable phone). -/
theorem recoverable_subset_of_missing_witness :
    (buildRecord taTwoRecovery rowMissingPhoneName).recoverable_fields ⊆
      (buildRecord taTwoRecovery rowMissingPhoneName).missing_fields :=
  recoverable_subset_of_missing taTwoRecovery [rowMissingPhoneName]
    (buildRecord taTwoRecovery rowMissingPhoneName) (by decide)

/-- Counterexample to C5 as stated: the send operation raises a raw
exception (not a structured failure object) when a required field is
empty — the malformed-input failure escapes the operation boundary. -/
theorem send_email_escape_counterexample :
    sendEmailExecute "" "subject" "body" SendTransport.ok =
      Except.error "Missing required input fields: to, subject, body" := by
  rfl

/-- Claim C5 (amended): the detect operation catches every failure of its
body and returns the structured catch-all object, but the send operation
propagates failures as raw thrown exceptions: it throws on a missing
required field (before any transport call) and re-throws a wrapped message
on transport failure; only the all-fields-present, transport-success case
returns a value. -/
theorem failure_boundary_behaviour :
    (∀ input world e, detectBody input world = Except.error e →
        detectMissingInfoExecute input world = .failure (catchAllFailure e)) ∧
    (∀ recipient subject body transport,
        recipient = "" ∨ subject = "" ∨ body = "" →
        sendEmailExecute recipient subject body transport =
          Except.error "Missing required input fields: to, subject, body") ∧
    (∀ recipient subject body m, recipient ≠ "" → subject ≠ "" → body ≠ "" →
        sendEmailExecute recipient subject body (.transportError m) =
          Except.error ("Failed to send email: " ++ m)) ∧
    (∀ recipient subject body, recipient ≠ "" → subject ≠ "" → body ≠ "" →
        sendEmailExecute recipient subject body .ok = Except.ok { success := true }) := by
  refine ⟨?_, ?_, ?_, ?_⟩
  · intro input world e h
    simp [detectMissingInfoExecute, h]
  · intro recipient subject body transport h
    simp only [sendEmailExecute]
    rw [if_pos h]
  · intro recipient subject body m h1 h2 h3
    simp only [sendEmailExecute]
    rw [if_neg (by tauto)]
  · intro recipient subject body h1 h2 h3
    simp only [sendEmailExecute]
    rw [if_neg (by tauto)]

/-- Witness for C5 (amended) at concrete inputs: a rejecting schema query
reaches the detect operation's catch-all; the send operation throws on an
empty recipient, rethrows a transport failure, and succeeds otherwise. -/
theorem failure_boundary_behaviour_witness :
    detectMissingInfoExecute {} throwingWorld = .failure (catchAllFailure "boom") ∧
    sendEmailExecute "" "subject" "body" SendTransport.ok =
      Except.error "Missing required input fields: to, subject, body" ∧
    sendEmailExecute "a@b.c" "hello" "text" (.transportError "quota") =
      Except.error ("Failed to send email: " ++ "quota") ∧
    sendEmailExecute "a@b.c" "hello" "text" .ok = Except.ok { success := true } :=
  ⟨failure_boundary_behaviour.1 {} throwingWorld "boom" rfl,
   failure_boundary_behaviour.2.1 "" "subject" "body" .ok (Or.inl rfl),
   failure_boundary_behaviour.2.2.1 "a@b.c" "hello" "text" "quota"
     (by decide) (by decide) (by decide),
   failure_boundary_behaviour.2.2.2 "a@b.c" "hello" "text"
     (by decide) (by decide) (by decide)⟩

/-- The phone and name bindings of a discovered model are either empty or
match their own pattern family (they are produced by `find?` over it). -/
theorem analyze_bound_fields_match_patterns (schemaData : List SchemaRow) :
    ((analyzeTableSchema schemaData).phoneField = "" ∨
      matchesAny phoneFieldPatterns (analyzeTableSchema schemaData).phoneField = true) ∧
    ((analyzeTableSchema schemaData).nameField = "" ∨
      matchesAny nameFieldPatterns (analyzeTableSchema schemaData).nameField = true) := by
  refine foldl_selStep_inv
    (fun st =>
      (st.phoneField = "" ∨ matchesAny phoneFieldPatterns st.phoneField = true) ∧
      (st.nameField = "" ∨ matchesAny nameFieldPatterns st.nameField = true))
    (groupColumns schemaData) ⟨"", "", "", "", ""⟩ (by simp) ?_
  intro tc _
  constructor
  · cases hfind : tc.2.find? (matchesAny phoneFieldPatterns) with
    | none => exact Or.inl (by simp [mkSelected, hfind])
    | some c =>
      refine Or.inr ?_
      have hsome := List.find?_some hfind
      simp [mkSelected, hfind, hsome]
  · cases hfind : tc.2.find? (matchesAny nameFieldPatterns) with
    | none => exact Or.inl (by simp [mkSelected, hfind])
    | some c =>
      refine Or.inr ?_
      have hsome := List.find?_some hfind
      simp [mkSelected, hfind, hsome]

/-- Claim C10: the priority function tests the literal strings `email`,
`phone_number`, `full_name`, while `missingFields` holds the bound column
names of the discovered schema; hence any record assembled for a discovered
model whose email binding is not literally `email` is never Critical, even
with the missing-email flag set. -/
theorem literal_email_never_critical (schemaData : List SchemaRow) (r : DetailRow)
    (hflag : r.missing_email = 1)
    (hE : (analyzeTableSchema schemaData).emailField ≠ "email") :
    (buildRecord (analyzeTableSchema schemaData) r).priority ≠ Priority.Critical := by
  have hpn := analyze_bound_fields_match_patterns schemaData
  set ta := analyzeTableSchema schemaData with hta
  have hmem : "email" ∉ recordMissingFields ta r := by
    simp only [recordMissingFields, List.mem_append]
    rintro ((h | h) | h)
    · split_ifs at h with hc
      · simp only [List.mem_singleton] at h
        exact hE h.symm
      · simp at h
    · split_ifs at h with hc
      · simp only [List.mem_singleton] at h
        rcases hpn.1 with h2 | h2
        · exact hc.2 h2
        · rw [← h] at h2
          exact absurd h2 (by decide)
      · simp at h
    · split_ifs at h with hc
      · simp only [List.mem_singleton] at h
        rcases hpn.2 with h2 | h2
        · exact hc.2 h2
        · rw [← h] at h2
          exact absurd h2 (by decide)
      · simp at h
  have hcontains : (recordMissingFields ta r).contains "email" = false := by
    rw [Bool.eq_false_iff]
    intro hcon
    exact hmem (List.elem_iff.mp hcon)
  have hpri : (buildRecord ta r).priority =
      categorizeCandidatePriority (recordMissingFields ta r) (recordRecoverableFields ta r) := rfl
  rw [hpri]
  simp only [categorizeCandidatePriority, hcontains]
  split_ifs <;> simp_all

/-- Witness for C10 at a concrete catalog (`contact_email` binding) and a
row with the missing-email flag set: the record's priority is not Critical. -/
theorem literal_email_never_critical_witness :
    (analyzeTableSchema contactEmailCatalog).emailField = "contact_email" ∧
    rowMissingEmail.missing_email = 1 ∧
    (buildRecord (analyzeTableSchema contactEmailCatalog) rowMissingEmail).priority ≠
      Priority.Critical :=
  ⟨by decide, rfl,
   literal_email_never_critical contactEmailCatalog rowMissingEmail rfl (by decide)⟩

/-- Claim C8: `priorityFilter` is applied after priority assignment as an
exact-match filter on the returned record list only; the summary of a
filtered run is identical to the summary of an unfiltered run on the same
data (it is computed over the unfiltered record set), in every world. -/
theorem priority_filter_frame (input : DetectInput) (world : DbWorld) (p : Priority) :
    (detectMissingInfoExecute { input with priorityFilter := some p } world).summaryPart =
      (detectMissingInfoExecute { input with priorityFilter := none } world).summaryPart ∧
    (detectMissingInfoExecute { input with priorityFilter := some p } world).reportPart =
      ((detectMissingInfoExecute { input with priorityFilter := none } world).reportPart).map
        (List.filter fun record => record.priority == p) := by
  cases hg : world.getToolsResult with
  | error e =>
    simp [detectMissingInfoExecute, detectBody, hg, DetectOutcome.summaryPart,
      DetectOutcome.reportPart]
  | ok tools =>
    cases hq : tools.queryTool with
    | none =>
      simp [detectMissingInfoExecute, detectBody, hg, hq, DetectOutcome.summaryPart,
        DetectOutcome.reportPart]
    | some q =>
      cases hs : q.schemaResult discoveryQuery with
      | error e =>
        simp [detectMissingInfoExecute, detectBody, hg, hq, hs, DetectOutcome.summaryPart,
          DetectOutcome.reportPart]
      | ok schemaData =>
        by_cases hlen : schemaData.length = 0
        · simp [detectMissingInfoExecute, detectBody, hg, hq, hs, hlen,
            DetectOutcome.summaryPart, DetectOutcome.reportPart]
        · by_cases hmain : (analyzeTableSchema schemaData).mainTable = ""
          · simp [detectMissingInfoExecute, detectBody, hg, hq, hs, hlen, hmain,
              DetectOutcome.summaryPart, DetectOutcome.reportPart]
          · cases hsum : q.summaryResult (buildSummaryQuery (analyzeTableSchema schemaData)) with
            | error e =>
              simp [detectMissingInfoExecute, detectBody, hg, hq, hs, hlen, hmain, hsum,
                DetectOutcome.summaryPart, DetectOutcome.reportPart]
            | ok summary =>
              cases hdet : q.detailedResult
                  (buildDetailedQuery (analyzeTableSchema schemaData)
                    input.includeRecoveryAnalysis input.limitResults) with
              | error e =>
                simp [detectMissingInfoExecute, detectBody, hg, hq, hs, hlen, hmain, hsum, hdet,
                  DetectOutcome.summaryPart, DetectOutcome.reportPart]
              | ok rows =>
                simp [detectMissingInfoExecute, detectBody, hg, hq, hs, hlen, hmain, hsum, hdet,
                  DetectOutcome.summaryPart, DetectOutcome.reportPart, buildDetectSuccess]

/-- Claim C9: with recovery analysis enabled and at least one discovered
recovery table, the generated detailed statement left-joins exactly the
first recovery table (discovery order), and the statement does not depend
on the remaining recovery tables at all — tables beyond the first are
never consulted when the statement is generated. -/
theorem detailed_query_joins_first_recovery (ta : TableAnalysis) (limitResults : Nat)
    (r0 : String) (rest : List String) (h : ta.recoveryTables = r0 :: rest) :
    buildDetailedQuery ta true limitResults =
      recoveryQueryHead ta ++ "LEFT JOIN " ++ r0 ++ recoveryQueryTail ta limitResults ∧
    ∀ rest' : List String,
      buildDetailedQuery { ta with recoveryTables := r0 :: rest' } true limitResults =
        buildDetailedQuery ta true limitResults := by
  constructor
  · simp [buildDetailedQuery, h]
  · intro rest'
    simp [buildDetailedQuery, h, recoveryQueryHead, recoveryQueryTail, detailBaseFragment]

/-- Witness for C9: the discovered model of `canonicalCatalog` has two
recovery tables; only `resumes` is interpolated, and replacing the second
recovery table leaves the statement unchanged. -/
theorem detailed_query_joins_first_recovery_witness :
    taTwoRecovery.recoveryTables = ["resumes", "application_forms"] ∧
    buildDetailedQuery taTwoRecovery true 50 =
      recoveryQueryHead taTwoRecovery ++ "LEFT JOIN " ++ "resumes" ++
        recoveryQueryTail taTwoRecovery 50 ∧
    buildDetailedQuery { taTwoRecovery with recoveryTables := ["resumes", "other_forms"] }
        true 50 =
      buildDetailedQuery taTwoRecovery true 50 :=
  ⟨by decide,
   (detailed_query_joins_first_recovery taTwoRecovery 50 "resumes"
     ["application_forms"] (by decide)).1,
   (detailed_query_joins_first_recovery taTwoRecovery 50 "resumes"
     ["application_forms"] (by decide)).2 ["other_forms"]⟩
